import Mathlib

/-!
Verification development for the ticket-scanning backend (`main.py`).

The service exposes two endpoints over a Mongo document store and an optional
Google-Sheets mirror:
  - `GET  /api/attendee/{attendee_id}`      (`get_attendee`)
  - `POST /api/attendee/{attendee_id}/mark` (`mark_attendance`)

The embedding below models the store as an association list keyed by
`attendee_id` (Mongo `find_one` / `update_one` on the `attendee_id` filter
touch the first matching document), the spreadsheet as a list of rows of
cells (the result of reading range `A:Z`), the clock as an explicit `now`
string (standing for `datetime.utcnow().isoformat()`), and each fallible
external call site by a boolean oracle saying whether that call raises.
`mark_attendance` additionally returns a trace of the external writes it
performed, in order, so that write-ordering properties can be stated.
-/

namespace TicketBackend

/-- A free-form key/value mapping, standing for a Python `dict` such as the
optional `meta` field of a mark request. -/
abbrev Meta := List (String × String)

/-- A Mongo attendee document.  `attendance_status`, `attendance_ts` and
`attendance_meta` are optional because the Python code reads them with
`doc.get(...)`; `fields` stands for all remaining registration attributes,
which the service never modifies (`$set` only touches the three attendance
keys). -/
structure AttendeeRecord where
  attendance_status : Option String
  attendance_ts : Option String
  attendance_meta : Option Meta
  fields : List (String × String)
deriving Repr, DecidableEq

/-- The attendee collection: documents keyed by `attendee_id`. -/
abbrev Store := List (String × AttendeeRecord)

/-- `collection.find_one({"attendee_id": aid})`: the first document whose
`attendee_id` equals `aid`. -/
def find_one : Store → String → Option AttendeeRecord
  | [], _ => none
  | (k, r) :: rest, aid => if k = aid then some r else find_one rest aid

/-- `collection.update_one({"attendee_id": aid}, {"$set": ...})`: apply the
update to the first document whose `attendee_id` equals `aid`, leaving every
other document unchanged. -/
def update_one : Store → String → (AttendeeRecord → AttendeeRecord) → Store
  | [], _, _ => []
  | (k, r) :: rest, aid, f =>
      if k = aid then (k, f r) :: rest else (k, r) :: update_one rest aid f

/-- Python truthiness of the optional `meta` dict: `if req.meta:` is taken
only when `meta` is present and non-empty. -/
def metaTruthy : Option Meta → Bool
  | none => false
  | some m => !m.isEmpty

/-- The `$set` update built in `mark_attendance`: always sets
`attendance_status` to `"Attended"` and `attendance_ts` to the current UTC
ISO timestamp, and sets `attendance_meta` to `req.meta` only when
`if req.meta:` is truthy. -/
def applyMark (now : String) (meta : Option Meta) (r : AttendeeRecord) : AttendeeRecord :=
  { r with
    attendance_status := some "Attended"
    attendance_ts := some now
    attendance_meta := if metaTruthy meta then meta else r.attendance_meta }

/-- The spreadsheet contents returned by `values().get` on range `A:Z`:
a list of rows, each a list of cell strings; row 0 is the header. -/
abbrev Sheet := List (List String)

/-- Pad a row with empty cells up to length `n` (writing a single cell past
the end of a short spreadsheet row materialises the cells before it). -/
def padTo (row : List String) (n : Nat) : List String :=
  row ++ List.replicate (n - row.length) ""

/-- Write value `v` into the cell at 0-based row `ri`, column `ci`. -/
def setCell : Sheet → Nat → Nat → String → Sheet
  | [], _, _, _ => []
  | row :: rest, 0, ci, v => ((padTo row (ci + 1)).set ci v) :: rest
  | row :: rest, ri + 1, ci, v => row :: setCell rest ri ci v

/-- The row test in the lookup loop of `update_google_sheet_mark`:
`len(row) > id_col_index and row[id_col_index] == attendee_id`. -/
def rowMatches (idCol : Nat) (aid : String) (row : List String) : Bool :=
  decide (idCol < row.length) && (row.getD idCol "" == aid)

/-- The mirror-side configuration and per-call exception oracles:
`serviceBuilt` is whether `sheets_service` is not `None` (see
`build_sheets_service`), `hasSpreadsheetId` is the truthiness of
`SHEETS_SPREADSHEET_ID`, and `getRaises` / `updateRaises` say whether the
respective Sheets API call raises. -/
structure SheetEnv where
  serviceBuilt : Bool
  hasSpreadsheetId : Bool
  getRaises : Bool
  updateRaises : Bool
deriving Repr, DecidableEq

/-- `build_sheets_service()`: returns `None` (modelled `false`) when
`GOOGLE_SERVICE_ACCOUNT_JSON` is unset or empty, or when `json.loads` on it
raises `JSONDecodeError` (`parseOk = false`); otherwise a service is built. -/
def build_sheets_service (googleSaJson : Option String) (parseOk : Bool) : Bool :=
  match googleSaJson with
  | none => false
  | some s => if s = "" then false else parseOk

/-- `update_google_sheet_mark(attendee_id, mark_value)`: returns whether the
mirror write succeeded together with the resulting sheet.  All exceptions
inside it are caught (`except Exception`) and reported as `False`; a missing
service or spreadsheet id, an empty sheet, a missing required header column,
or an attendee id found in no data row also report `False`. -/
def update_google_sheet_mark (env : SheetEnv) (sheet : Sheet)
    (attendee_id mark_value : String) : Bool × Sheet :=
  if !env.serviceBuilt || !env.hasSpreadsheetId then (false, sheet)
  else if env.getRaises then (false, sheet)
  else
    match sheet with
    | [] => (false, sheet)
    | header :: data_rows =>
      match header.findIdx? (· == "Attendee ID"), header.findIdx? (· == "Attendance") with
      | some idCol, some attCol =>
        match data_rows.findIdx? (rowMatches idCol attendee_id) with
        | none => (false, sheet)
        | some idx =>
          if env.updateRaises then (false, sheet)
          else (true, setCell sheet (idx + 1) attCol mark_value)
      | _, _ => (false, sheet)

/-- The POST body of a mark request (`MarkRequest` pydantic model). -/
structure MarkRequest where
  scanner_id : String
  scanner_password : String
  meta : Option Meta
deriving Repr, DecidableEq

/-- The JSON body returned by a non-exceptional mark request. -/
structure MarkResponse where
  ok : Bool
  message : String
  sheet_updated : Bool
deriving Repr, DecidableEq

/-- The ways a mark request terminates without a normal JSON body: the three
`HTTPException`s raised by `mark_attendance`, plus an exception that escapes
the handler (no surrounding `try`), which the framework turns into a hard
500 failure. -/
inductive MarkError
  | Unauthorized
  | NotFound
  | AlreadyMarked (detail : String)
  | Unhandled (detail : String)
deriving Repr, DecidableEq

/-- HTTP status of each failure mode (`Unhandled` is FastAPI's default 500
for an uncaught exception). -/
def MarkError.status : MarkError → Nat
  | .Unauthorized => 401
  | .NotFound => 404
  | .AlreadyMarked _ => 409
  | .Unhandled _ => 500

/-- An external interaction performed during a mark request, in execution
order: the `collection.find_one` lookup, a completed
`update_google_sheet_mark` call with its result, or a completed
`collection.update_one` write. -/
inductive Event
  | storeRead
  | mirrorWrite (success : Bool)
  | storeWrite
deriving Repr, DecidableEq

/-- Service configuration and store-side exception oracles:
the configured `ScannerCredential` pair, the `UPDATE_SHEETS_ON_MARK` flag,
the mirror environment, and whether `collection.find_one` /
`collection.update_one` raise when called. -/
structure Env where
  scanner_id : String
  scanner_password : String
  update_sheets_on_mark : Bool
  sheetEnv : SheetEnv
  findOneRaises : Bool
  updateOneRaises : Bool
deriving Repr, DecidableEq

/-- Everything a mark request produces: its HTTP outcome, the final store and
sheet, and the ordered trace of external writes. -/
structure MarkOutcome where
  result : Except MarkError MarkResponse
  store : Store
  sheet : Sheet
  trace : List Event
deriving Repr

/-- `POST /api/attendee/{attendee_id}/mark` (`mark_attendance` in `main.py`).

Order of operations, exactly as in the handler: credential equality check
(401), `find_one` (404 if absent; an exception here is uncaught), the
already-attended barrier (409 carrying the original `attendance_ts`), then
either the direct store update when `UPDATE_SHEETS_ON_MARK` is false (an
exception here is uncaught), or the mirror-first path: attempt the sheet
write, abort with `ok = false` if it reports failure, otherwise update the
store — a store exception in this branch is caught by the surrounding
`try/except` and converted to `ok = false, sheet_updated = false`. -/
def mark_attendance (env : Env) (now : String) (attendee_id : String)
    (req : MarkRequest) (store : Store) (sheet : Sheet) : MarkOutcome :=
  if req.scanner_id != env.scanner_id || req.scanner_password != env.scanner_password then
    ⟨.error .Unauthorized, store, sheet, []⟩
  else if env.findOneRaises then
    ⟨.error (.Unhandled "find_one raised"), store, sheet, [.storeRead]⟩
  else
    match find_one store attendee_id with
    | none => ⟨.error .NotFound, store, sheet, [.storeRead]⟩
    | some doc =>
      if doc.attendance_status == some "Attended" then
        ⟨.error (.AlreadyMarked ("Ticket already used. Marked at: " ++ doc.attendance_ts.getD "N/A")),
         store, sheet, [.storeRead]⟩
      else if !env.update_sheets_on_mark then
        if env.updateOneRaises then
          ⟨.error (.Unhandled "update_one raised"), store, sheet, [.storeRead]⟩
        else
          ⟨.ok ⟨true, "Attendance marked in Database (sheet update was disabled)", false⟩,
           update_one store attendee_id (applyMark now req.meta), sheet,
           [.storeRead, .storeWrite]⟩
      else
        let res := update_google_sheet_mark env.sheetEnv sheet attendee_id "Attended"
        if !res.1 then
          ⟨.ok ⟨false, "Failed to update Google Sheet. Attendance not marked.", false⟩,
           store, res.2, [.storeRead, .mirrorWrite false]⟩
        else if env.updateOneRaises then
          ⟨.ok ⟨false, "An unexpected error occurred: update_one raised", false⟩,
           store, res.2, [.storeRead, .mirrorWrite true]⟩
        else
          ⟨.ok ⟨true, "Attendance marked successfully in Sheet and Database.", true⟩,
           update_one store attendee_id (applyMark now req.meta), res.2,
           [.storeRead, .mirrorWrite true, .storeWrite]⟩

/-- `GET /api/attendee/{attendee_id}` (`get_attendee` in `main.py`): a pure
read — it returns the document or a 404 and performs no write of any kind. -/
def get_attendee (store : Store) (attendee_id : String) : Except MarkError AttendeeRecord :=
  match find_one store attendee_id with
  | none => Except.error MarkError.NotFound
  | some doc => Except.ok doc

/-! Concrete fixtures used to instantiate hypotheses in witness theorems. -/

/-- A fully configured, non-raising mirror environment. -/
def sheetEnvOk : SheetEnv := ⟨true, true, false, false⟩

/-- Service configuration with the mirror disabled (`UPDATE_SHEETS_ON_MARK` false). -/
def envNoMirror : Env := ⟨"scanner1", "password123", false, sheetEnvOk, false, false⟩

/-- Service configuration with the mirror enabled and configured. -/
def envMirror : Env := ⟨"scanner1", "password123", true, sheetEnvOk, false, false⟩

/-- Mirror enabled but no sheets service was built. -/
def envMirrorUnconfigured : Env := ⟨"scanner1", "password123", true, ⟨false, true, false, false⟩, false, false⟩

/-- Mirror disabled and `collection.update_one` raises. -/
def envStoreExc : Env := ⟨"scanner1", "password123", false, sheetEnvOk, false, true⟩

/-- Mirror enabled and `collection.update_one` raises. -/
def envMirrorStoreExc : Env := ⟨"scanner1", "password123", true, sheetEnvOk, false, true⟩

/-- A mark request with the correct credentials and no meta. -/
def reqGood : MarkRequest := ⟨"scanner1", "password123", none⟩

/-- A mark request with a wrong password. -/
def reqBad : MarkRequest := ⟨"scanner1", "wrong", none⟩

/-- A mark request with the correct credentials and an empty meta dict. -/
def reqEmptyMeta : MarkRequest := ⟨"scanner1", "password123", some []⟩

/-- A mark request with the correct credentials and a non-empty meta dict. -/
def reqWithMeta : MarkRequest := ⟨"scanner1", "password123", some [("device", "d1")]⟩

/-- An attendee document that has not been marked yet. -/
def recUnmarked : AttendeeRecord := ⟨some "NotAttended", none, none, [("name", "Ada")]⟩

/-- An attendee document already marked attended. -/
def recMarked : AttendeeRecord := ⟨some "Attended", some "2025-01-01T00:00:00", none, []⟩

/-- An unmarked attendee document carrying a previous `attendance_meta`. -/
def recWithMeta : AttendeeRecord := ⟨some "NotAttended", none, some [("k", "v")], []⟩

/-- A mirror sheet containing a data row for attendee `abc-123`. -/
def sheetDemo : Sheet := [["Attendee ID", "Attendance"], ["abc-123", ""]]

/-- A mirror sheet whose only data row is for a different attendee. -/
def sheetOther : Sheet := [["Attendee ID", "Attendance"], ["zzz-999", ""]]

/-! Helper lemmas about the store and the mirror lookup. -/

/-- Updating the first document matching `aid` and then looking `aid` up
returns the updated document. -/
theorem find_one_update_one (s : Store) (aid : String)
    (f : AttendeeRecord → AttendeeRecord) (d : AttendeeRecord)
    (h : find_one s aid = some d) :
    find_one (update_one s aid f) aid = some (f d) := by
  induction s with
  | nil => simp [find_one] at h
  | cons p rest ih =>
    obtain ⟨k, r⟩ := p
    by_cases hk : k = aid
    · subst hk
      simp [find_one] at h
      simp [update_one, find_one, h]
    · simp [find_one, hk] at h
      simp [update_one, find_one, hk]
      exact ih h

/-- `update_one` leaves every position's key unchanged and either keeps the
document or replaces it by its image under the update. -/
theorem update_one_entry (s : Store) (aid : String)
    (f : AttendeeRecord → AttendeeRecord) (i : Nat) (k : String)
    (r : AttendeeRecord) (h : s[i]? = some (k, r)) :
    (update_one s aid f)[i]? = some (k, r) ∨
      (update_one s aid f)[i]? = some (k, f r) := by
  induction s generalizing i with
  | nil => simp at h
  | cons p rest ih =>
    obtain ⟨k0, r0⟩ := p
    cases i with
    | zero =>
      simp at h
      obtain ⟨hk1, hr1⟩ := h
      subst hk1
      subst hr1
      by_cases hk : k0 = aid
      · right
        simp [update_one, hk]
      · left
        simp [update_one, hk]
    | succ n =>
      simp at h
      by_cases hk : k0 = aid
      · left
        simp [update_one, hk, h]
      · simpa [update_one, hk] using ih n h

/-- If no data row holds `aid` in the id column, the row search fails. -/
theorem findIdx?_rowMatches_none (rows : List (List String)) (idCol : Nat)
    (aid : String)
    (h : ∀ row ∈ rows, idCol < row.length → row.getD idCol "" ≠ aid) :
    rows.findIdx? (rowMatches idCol aid) = none := by
  rw [List.findIdx?_eq_none_iff]
  intro row hrow
  have hfalse : rowMatches idCol aid row = false := by
    unfold rowMatches
    by_cases hl : idCol < row.length
    · rw [decide_eq_true hl, Bool.true_and, beq_eq_false_iff_ne]
      exact h row hrow hl
    · rw [decide_eq_false hl, Bool.false_and]
  simp [hfalse]

/-- The store produced by a mark request is either the input store or the
input store with the mark update applied to the requested attendee. -/
theorem mark_attendance_store_cases (env : Env) (now aid : String)
    (req : MarkRequest) (store : Store) (sheet : Sheet) :
    (mark_attendance env now aid req store sheet).store = store ∨
      (mark_attendance env now aid req store sheet).store =
        update_one store aid (applyMark now req.meta) := by
  unfold mark_attendance
  dsimp only
  repeat' split
  all_goals first | (left; rfl) | (right; rfl)

/-- An unconfigured mirror (no service or no spreadsheet id) makes
`update_google_sheet_mark` report failure without touching the sheet. -/
theorem update_google_sheet_mark_unconfigured (env : SheetEnv) (sheet : Sheet)
    (aid mv : String)
    (h : env.serviceBuilt = false ∨ env.hasSpreadsheetId = false) :
    update_google_sheet_mark env sheet aid mv = (false, sheet) := by
  unfold update_google_sheet_mark
  rcases h with h | h <;> simp [h]

/-- `build_sheets_service` returns no service when the service-account JSON
is unset, empty, or fails to parse. -/
theorem build_sheets_service_unconfigured (saJson : Option String)
    (parseOk : Bool)
    (h : saJson = none ∨ saJson = some "" ∨ parseOk = false) :
    build_sheets_service saJson parseOk = false := by
  unfold build_sheets_service
  rcases h with h | h | h <;> cases saJson <;> simp_all

/-! Claim theorems. -/

/-- C7: a mark request whose submitted (scanner_id, scanner_password) pair is
not exactly equal to the configured ScannerCredential fails with Unauthorized
(HTTP 401) before any further action: no store read or write and no mirror
call occurs (empty interaction trace), and the store and the sheet are left
unchanged. -/
theorem C7_unauthorized_before_any_action (env : Env) (now aid : String)
    (req : MarkRequest) (store : Store) (sheet : Sheet)
    (h : ¬ (req.scanner_id = env.scanner_id ∧
            req.scanner_password = env.scanner_password)) :
    (mark_attendance env now aid req store sheet).result =
        Except.error MarkError.Unauthorized ∧
      MarkError.Unauthorized.status = 401 ∧
      (mark_attendance env now aid req store sheet).store = store ∧
      (mark_attendance env now aid req store sheet).sheet = sheet ∧
      (mark_attendance env now aid req store sheet).trace = [] := by
  have hb : (req.scanner_id != env.scanner_id ||
      req.scanner_password != env.scanner_password) = true := by
    simp only [Bool.or_eq_true, bne_iff_ne]
    exact not_and_or.mp h
  unfold mark_attendance
  rw [if_pos hb]
  exact ⟨rfl, rfl, rfl, rfl, rfl⟩

/-- C7 witness: a concrete request with a wrong password is rejected with
a 401 and touches nothing. -/
theorem C7_unauthorized_before_any_action_witness :
    (mark_attendance envNoMirror "2025-06-01T10:00:00" "abc-123" reqBad
        [("abc-123", recUnmarked)] sheetDemo).result =
        Except.error MarkError.Unauthorized ∧
      MarkError.Unauthorized.status = 401 ∧
      (mark_attendance envNoMirror "2025-06-01T10:00:00" "abc-123" reqBad
        [("abc-123", recUnmarked)] sheetDemo).store = [("abc-123", recUnmarked)] ∧
      (mark_attendance envNoMirror "2025-06-01T10:00:00" "abc-123" reqBad
        [("abc-123", recUnmarked)] sheetDemo).sheet = sheetDemo ∧
      (mark_attendance envNoMirror "2025-06-01T10:00:00" "abc-123" reqBad
        [("abc-123", recUnmarked)] sheetDemo).trace = [] :=
  C7_unauthorized_before_any_action envNoMirror "2025-06-01T10:00:00" "abc-123"
    reqBad [("abc-123", recUnmarked)] sheetDemo (by decide)

/-- C8: a mark request with correct credentials for an attendee_id with no
record in the store fails with NotFound (HTTP 404); no record and no mirror
row is written (the store and sheet are unchanged and the trace holds only
the store lookup). -/
theorem C8_not_found (env : Env) (now aid : String) (req : MarkRequest)
    (store : Store) (sheet : Sheet)
    (hid : req.scanner_id = env.scanner_id)
    (hpw : req.scanner_password = env.scanner_password)
    (hfr : env.findOneRaises = false)
    (habs : find_one store aid = none) :
    (mark_attendance env now aid req store sheet).result =
        Except.error MarkError.NotFound ∧
      MarkError.NotFound.status = 404 ∧
      (mark_attendance env now aid req store sheet).store = store ∧
      (mark_attendance env now aid req store sheet).sheet = sheet ∧
      (mark_attendance env now aid req store sheet).trace = [Event.storeRead] := by
  unfold mark_attendance
  rw [hid, hpw]
  simp only [bne_self_eq_false, Bool.or_self, Bool.false_eq_true, if_false, hfr, habs]
  refine ⟨?_, ?_, ?_, ?_, ?_⟩ <;> first | rfl | trivial

/-- C8 witness: a concrete request for an unknown attendee returns 404 and
writes nothing. -/
theorem C8_not_found_witness :
    (mark_attendance envNoMirror "2025-06-01T10:00:00" "missing-id" reqGood
        [("abc-123", recUnmarked)] sheetDemo).result =
        Except.error MarkError.NotFound ∧
      MarkError.NotFound.status = 404 ∧
      (mark_attendance envNoMirror "2025-06-01T10:00:00" "missing-id" reqGood
        [("abc-123", recUnmarked)] sheetDemo).store = [("abc-123", recUnmarked)] ∧
      (mark_attendance envNoMirror "2025-06-01T10:00:00" "missing-id" reqGood
        [("abc-123", recUnmarked)] sheetDemo).sheet = sheetDemo ∧
      (mark_attendance envNoMirror "2025-06-01T10:00:00" "missing-id" reqGood
        [("abc-123", recUnmarked)] sheetDemo).trace = [Event.storeRead] :=
  C8_not_found envNoMirror "2025-06-01T10:00:00" "missing-id" reqGood
    [("abc-123", recUnmarked)] sheetDemo rfl rfl rfl (by decide)

/-- C1: marking an attendee whose attendance_status is already "Attended"
with correct credentials fails with the AlreadyMarked conflict (HTTP 409),
whose message carries the record's original attendance_ts, and the store
(hence the record's attendance_ts and attendance_meta) and the sheet are
left unchanged. -/
theorem C1_already_marked_conflict (env : Env) (now aid : String)
    (req : MarkRequest) (store : Store) (sheet : Sheet)
    (doc : AttendeeRecord) (ts : String)
    (hid : req.scanner_id = env.scanner_id)
    (hpw : req.scanner_password = env.scanner_password)
    (hfr : env.findOneRaises = false)
    (hdoc : find_one store aid = some doc)
    (hatt : doc.attendance_status = some "Attended")
    (hts : doc.attendance_ts = some ts) :
    (mark_attendance env now aid req store sheet).result =
        Except.error (MarkError.AlreadyMarked
          ("Ticket already used. Marked at: " ++ ts)) ∧
      (MarkError.AlreadyMarked ("Ticket already used. Marked at: " ++ ts)).status = 409 ∧
      (mark_attendance env now aid req store sheet).store = store ∧
      (mark_attendance env now aid req store sheet).sheet = sheet ∧
      (mark_attendance env now aid req store sheet).trace = [Event.storeRead] := by
  unfold mark_attendance
  rw [hid, hpw]
  simp only [bne_self_eq_false, Bool.or_self, Bool.false_eq_true, if_false,
    hfr, hdoc, hatt, hts, beq_self_eq_true, if_true, Option.getD_some]
  refine ⟨?_, ?_, ?_, ?_, ?_⟩ <;> first | rfl | trivial

/-- C1 witness: re-marking a concretely already-attended record yields the
409 conflict carrying the original timestamp and changes nothing. -/
theorem C1_already_marked_conflict_witness :
    (mark_attendance envNoMirror "2025-06-01T10:00:00" "abc-123" reqGood
        [("abc-123", recMarked)] sheetDemo).result =
        Except.error (MarkError.AlreadyMarked
          ("Ticket already used. Marked at: " ++ "2025-01-01T00:00:00")) ∧
      (MarkError.AlreadyMarked
        ("Ticket already used. Marked at: " ++ "2025-01-01T00:00:00")).status = 409 ∧
      (mark_attendance envNoMirror "2025-06-01T10:00:00" "abc-123" reqGood
        [("abc-123", recMarked)] sheetDemo).store = [("abc-123", recMarked)] ∧
      (mark_attendance envNoMirror "2025-06-01T10:00:00" "abc-123" reqGood
        [("abc-123", recMarked)] sheetDemo).sheet = sheetDemo ∧
      (mark_attendance envNoMirror "2025-06-01T10:00:00" "abc-123" reqGood
        [("abc-123", recMarked)] sheetDemo).trace = [Event.storeRead] :=
  C1_already_marked_conflict envNoMirror "2025-06-01T10:00:00" "abc-123" reqGood
    [("abc-123", recMarked)] sheetDemo recMarked "2025-01-01T00:00:00"
    rfl rfl rfl (by decide) rfl rfl

/-- C3: a mark request with correct credentials, mirror disabled, and an
existing attendee whose attendance_status is not "Attended" ends with the
store record having attendance_status = "Attended" and the freshly generated
UTC timestamp of this request, and the response has ok = true and
sheet_updated = false. -/
theorem C3_mirror_disabled_marks (env : Env) (now aid : String)
    (req : MarkRequest) (store : Store) (sheet : Sheet) (doc : AttendeeRecord)
    (hid : req.scanner_id = env.scanner_id)
    (hpw : req.scanner_password = env.scanner_password)
    (hfr : env.findOneRaises = false)
    (hur : env.updateOneRaises = false)
    (hdis : env.update_sheets_on_mark = false)
    (hdoc : find_one store aid = some doc)
    (hnot : doc.attendance_status ≠ some "Attended") :
    (mark_attendance env now aid req store sheet).result =
        Except.ok ⟨true, "Attendance marked in Database (sheet update was disabled)", false⟩ ∧
      find_one (mark_attendance env now aid req store sheet).store aid =
        some (applyMark now req.meta doc) ∧
      (applyMark now req.meta doc).attendance_status = some "Attended" ∧
      (applyMark now req.meta doc).attendance_ts = some now := by
  have hb : (doc.attendance_status == some "Attended") = false :=
    beq_eq_false_iff_ne.mpr hnot
  unfold mark_attendance
  rw [hid, hpw]
  simp only [bne_self_eq_false, Bool.or_self, Bool.false_eq_true, if_false,
    hfr, hdoc, hb, hdis, Bool.not_false, if_true, hur]
  refine ⟨?_, ?_, ?_, ?_⟩
  · trivial
  · exact find_one_update_one store aid (applyMark now req.meta) doc hdoc
  · rfl
  · rfl

/-- C3 witness: a concrete mirror-disabled mark of an unmarked attendee
succeeds and stamps the record. -/
theorem C3_mirror_disabled_marks_witness :
    (mark_attendance envNoMirror "2025-06-01T10:00:00" "abc-123" reqGood
        [("abc-123", recUnmarked)] sheetDemo).result =
        Except.ok ⟨true, "Attendance marked in Database (sheet update was disabled)", false⟩ ∧
      find_one (mark_attendance envNoMirror "2025-06-01T10:00:00" "abc-123" reqGood
        [("abc-123", recUnmarked)] sheetDemo).store "abc-123" =
        some (applyMark "2025-06-01T10:00:00" reqGood.meta recUnmarked) ∧
      (applyMark "2025-06-01T10:00:00" reqGood.meta recUnmarked).attendance_status =
        some "Attended" ∧
      (applyMark "2025-06-01T10:00:00" reqGood.meta recUnmarked).attendance_ts =
        some "2025-06-01T10:00:00" :=
  C3_mirror_disabled_marks envNoMirror "2025-06-01T10:00:00" "abc-123" reqGood
    [("abc-123", recUnmarked)] sheetDemo recUnmarked rfl rfl rfl rfl rfl
    (by decide) (by decide)

/-- C6: once a record's attendance_status equals "Attended" it is never reset
by any mark request: after an arbitrary mark request under an arbitrary
configuration, every store position that held an attended record still holds
a record with the same key and attendance_status = "Attended" (the only
update the system ever writes sets the status to "Attended"). -/
theorem C6_attended_never_reset (env : Env) (now aid : String)
    (req : MarkRequest) (store : Store) (sheet : Sheet) (i : Nat) (k : String)
    (r : AttendeeRecord)
    (hget : store[i]? = some (k, r))
    (hatt : r.attendance_status = some "Attended") :
    ∃ r', (mark_attendance env now aid req store sheet).store[i]? = some (k, r') ∧
      r'.attendance_status = some "Attended" := by
  rcases mark_attendance_store_cases env now aid req store sheet with h | h
  · exact ⟨r, by rw [h]; exact hget, hatt⟩
  · rw [h]
    rcases update_one_entry store aid (applyMark now req.meta) i k r hget with h2 | h2
    · exact ⟨r, h2, hatt⟩
    · exact ⟨applyMark now req.meta r, h2, rfl⟩

/-- C6 witness: a concrete attended record survives a concrete re-mark
attempt with its status still "Attended". -/
theorem C6_attended_never_reset_witness :
    ∃ r', (mark_attendance envNoMirror "2025-06-01T10:00:00" "abc-123" reqGood
        [("abc-123", recMarked)] sheetDemo).store[0]? = some ("abc-123", r') ∧
      r'.attendance_status = some "Attended" :=
  C6_attended_never_reset envNoMirror "2025-06-01T10:00:00" "abc-123" reqGood
    [("abc-123", recMarked)] sheetDemo 0 "abc-123" recMarked (by decide) rfl

/-- C2: with correct credentials, an existing unmarked attendee, mirror
enabled, and the mirror write succeeding, the store transitions to
"Attended" only after the mirror write is confirmed: every store write in
the interaction trace is preceded by a successful mirror write, and the
store record ends marked. -/
theorem C2_store_transition_after_mirror_confirm (env : Env) (now aid : String)
    (req : MarkRequest) (store : Store) (sheet : Sheet) (doc : AttendeeRecord)
    (hid : req.scanner_id = env.scanner_id)
    (hpw : req.scanner_password = env.scanner_password)
    (hfr : env.findOneRaises = false)
    (hur : env.updateOneRaises = false)
    (hen : env.update_sheets_on_mark = true)
    (hdoc : find_one store aid = some doc)
    (hnot : doc.attendance_status ≠ some "Attended")
    (hsucc : (update_google_sheet_mark env.sheetEnv sheet aid "Attended").1 = true) :
    (∀ i : Nat, (mark_attendance env now aid req store sheet).trace[i]? =
        some Event.storeWrite →
        ∃ j : Nat, j < i ∧ (mark_attendance env now aid req store sheet).trace[j]? =
          some (Event.mirrorWrite true)) ∧
      find_one (mark_attendance env now aid req store sheet).store aid =
        some (applyMark now req.meta doc) := by
  have hb : (doc.attendance_status == some "Attended") = false :=
    beq_eq_false_iff_ne.mpr hnot
  have hm : mark_attendance env now aid req store sheet =
      ⟨.ok ⟨true, "Attendance marked successfully in Sheet and Database.", true⟩,
       update_one store aid (applyMark now req.meta),
       (update_google_sheet_mark env.sheetEnv sheet aid "Attended").2,
       [.storeRead, .mirrorWrite true, .storeWrite]⟩ := by
    unfold mark_attendance
    rw [hid, hpw]
    simp [hfr, hdoc, hb, hen, hur, hsucc]
  constructor
  · intro i hi
    rw [hm] at hi
    match i with
    | 0 => exact absurd hi (by simp)
    | 1 => exact absurd hi (by simp)
    | 2 => exact ⟨1, by omega, by simp [hm]⟩
    | n + 3 => exact absurd hi (by simp)
  · rw [hm]
    exact find_one_update_one store aid (applyMark now req.meta) doc hdoc

/-- C2 witness: a concrete mirror-enabled mark whose sheet row exists
produces the trace storeRead, mirrorWrite true, storeWrite and marks the
record. -/
theorem C2_store_transition_after_mirror_confirm_witness :
    (∀ i : Nat, (mark_attendance envMirror "2025-06-01T10:00:00" "abc-123" reqGood
        [("abc-123", recUnmarked)] sheetDemo).trace[i]? =
        some Event.storeWrite →
        ∃ j : Nat, j < i ∧ (mark_attendance envMirror "2025-06-01T10:00:00" "abc-123"
          reqGood [("abc-123", recUnmarked)] sheetDemo).trace[j]? =
          some (Event.mirrorWrite true)) ∧
      find_one (mark_attendance envMirror "2025-06-01T10:00:00" "abc-123" reqGood
        [("abc-123", recUnmarked)] sheetDemo).store "abc-123" =
        some (applyMark "2025-06-01T10:00:00" reqGood.meta recUnmarked) :=
  C2_store_transition_after_mirror_confirm envMirror "2025-06-01T10:00:00"
    "abc-123" reqGood [("abc-123", recUnmarked)] sheetDemo recUnmarked
    rfl rfl rfl rfl rfl (by decide) (by decide) (by decide)

/-- C4: with correct credentials, an existing unmarked attendee, mirror
enabled and operational, and no data row whose "Attendee ID" cell equals the
attendee id, the mirror lookup reports failure (it returns false, leaving
the sheet unchanged, rather than raising), the store remains unmarked, and
the response is the non-exceptional outcome ok = false. -/
theorem C4_absent_from_mirror_aborts (env : Env) (now aid : String)
    (req : MarkRequest) (store : Store) (header : List String)
    (data_rows : List (List String)) (doc : AttendeeRecord) (idCol attCol : Nat)
    (hid : req.scanner_id = env.scanner_id)
    (hpw : req.scanner_password = env.scanner_password)
    (hfr : env.findOneRaises = false)
    (hen : env.update_sheets_on_mark = true)
    (hdoc : find_one store aid = some doc)
    (hnot : doc.attendance_status ≠ some "Attended")
    (hsb : env.sheetEnv.serviceBuilt = true)
    (hsid : env.sheetEnv.hasSpreadsheetId = true)
    (hgr : env.sheetEnv.getRaises = false)
    (hidc : header.findIdx? (· == "Attendee ID") = some idCol)
    (hattc : header.findIdx? (· == "Attendance") = some attCol)
    (habs : ∀ row ∈ data_rows, idCol < row.length → row.getD idCol "" ≠ aid) :
    update_google_sheet_mark env.sheetEnv (header :: data_rows) aid "Attended" =
        (false, header :: data_rows) ∧
      (mark_attendance env now aid req store (header :: data_rows)).result =
        Except.ok ⟨false, "Failed to update Google Sheet. Attendance not marked.", false⟩ ∧
      (mark_attendance env now aid req store (header :: data_rows)).store = store ∧
      (mark_attendance env now aid req store (header :: data_rows)).sheet =
        header :: data_rows := by
  have hrow := findIdx?_rowMatches_none data_rows idCol aid habs
  have hu : update_google_sheet_mark env.sheetEnv (header :: data_rows) aid "Attended" =
      (false, header :: data_rows) := by
    unfold update_google_sheet_mark
    simp [hsb, hsid, hgr, hidc, hattc, hrow]
  have hb : (doc.attendance_status == some "Attended") = false :=
    beq_eq_false_iff_ne.mpr hnot
  have hm : mark_attendance env now aid req store (header :: data_rows) =
      ⟨.ok ⟨false, "Failed to update Google Sheet. Attendance not marked.", false⟩,
       store, header :: data_rows, [.storeRead, .mirrorWrite false]⟩ := by
    unfold mark_attendance
    rw [hid, hpw]
    simp [hfr, hdoc, hb, hen, hu]
  exact ⟨hu, by rw [hm], by rw [hm], by rw [hm]⟩

/-- C4 witness: a concrete mirror sheet holding only a different attendee
row makes the mark attempt abort with ok = false and no writes. -/
theorem C4_absent_from_mirror_aborts_witness :
    update_google_sheet_mark envMirror.sheetEnv sheetOther "abc-123" "Attended" =
        (false, sheetOther) ∧
      (mark_attendance envMirror "2025-06-01T10:00:00" "abc-123" reqGood
        [("abc-123", recUnmarked)] sheetOther).result =
        Except.ok ⟨false, "Failed to update Google Sheet. Attendance not marked.", false⟩ ∧
      (mark_attendance envMirror "2025-06-01T10:00:00" "abc-123" reqGood
        [("abc-123", recUnmarked)] sheetOther).store = [("abc-123", recUnmarked)] ∧
      (mark_attendance envMirror "2025-06-01T10:00:00" "abc-123" reqGood
        [("abc-123", recUnmarked)] sheetOther).sheet = sheetOther :=
  C4_absent_from_mirror_aborts envMirror "2025-06-01T10:00:00" "abc-123" reqGood
    [("abc-123", recUnmarked)] ["Attendee ID", "Attendance"] [["zzz-999", ""]]
    recUnmarked 0 1 rfl rfl rfl rfl (by decide) (by decide) rfl rfl rfl
    (by decide) (by decide) (by decide)

/-- C10: when the mirror-enable flag is true but no sheets service was built
(service-account JSON unset, empty, or invalid) or no spreadsheet id is
configured, every mark request leaves the store unchanged — no attendee can
be marked — and a request with correct credentials and an existing unmarked
attendee returns the non-exceptional outcome ok = false, sheet_updated =
false. -/
theorem C10_mirror_enabled_unconfigured (env : Env) (now aid : String)
    (req : MarkRequest) (store : Store) (sheet : Sheet)
    (saJson : Option String) (parseOk : Bool)
    (hen : env.update_sheets_on_mark = true)
    (hsb : env.sheetEnv.serviceBuilt = build_sheets_service saJson parseOk)
    (hcfg : (saJson = none ∨ saJson = some "" ∨ parseOk = false) ∨
            env.sheetEnv.hasSpreadsheetId = false) :
    (mark_attendance env now aid req store sheet).store = store ∧
      ((req.scanner_id = env.scanner_id ∧ req.scanner_password = env.scanner_password ∧
        env.findOneRaises = false ∧
        ∃ doc, find_one store aid = some doc ∧ doc.attendance_status ≠ some "Attended") →
       (mark_attendance env now aid req store sheet).result =
         Except.ok ⟨false, "Failed to update Google Sheet. Attendance not marked.", false⟩) := by
  have hun : env.sheetEnv.serviceBuilt = false ∨ env.sheetEnv.hasSpreadsheetId = false := by
    rcases hcfg with h | h
    · exact Or.inl (hsb.trans (build_sheets_service_unconfigured saJson parseOk h))
    · exact Or.inr h
  have hu := update_google_sheet_mark_unconfigured env.sheetEnv sheet aid "Attended" hun
  constructor
  · unfold mark_attendance
    dsimp only
    repeat' split
    all_goals simp_all
  · rintro ⟨hid, hpw, hfr, doc, hdoc, hnot⟩
    have hb : (doc.attendance_status == some "Attended") = false :=
      beq_eq_false_iff_ne.mpr hnot
    unfold mark_attendance
    rw [hid, hpw]
    simp [hfr, hdoc, hb, hen, hu]

/-- C10 witness: with the mirror flag on but no sheets service built, a
concrete well-formed mark request changes nothing and reports ok = false. -/
theorem C10_mirror_enabled_unconfigured_witness :
    (mark_attendance envMirrorUnconfigured "2025-06-01T10:00:00" "abc-123" reqGood
        [("abc-123", recUnmarked)] sheetDemo).store = [("abc-123", recUnmarked)] ∧
      ((reqGood.scanner_id = envMirrorUnconfigured.scanner_id ∧
        reqGood.scanner_password = envMirrorUnconfigured.scanner_password ∧
        envMirrorUnconfigured.findOneRaises = false ∧
        ∃ doc, find_one [("abc-123", recUnmarked)] "abc-123" = some doc ∧
          doc.attendance_status ≠ some "Attended") →
       (mark_attendance envMirrorUnconfigured "2025-06-01T10:00:00" "abc-123" reqGood
        [("abc-123", recUnmarked)] sheetDemo).result =
         Except.ok ⟨false, "Failed to update Google Sheet. Attendance not marked.", false⟩) :=
  C10_mirror_enabled_unconfigured envMirrorUnconfigured "2025-06-01T10:00:00"
    "abc-123" reqGood [("abc-123", recUnmarked)] sheetDemo none true rfl rfl
    (Or.inl (Or.inl rfl))

/-- C5 counterexample: with the mirror disabled, a `collection.update_one`
exception during a well-formed mark request is NOT caught — it escapes the
handler as an unhandled hard failure (500), which is none of Unauthorized,
NotFound, AlreadyMarked; the store update at line 204 sits outside any
try/except. -/
theorem C5_counterexample_store_exception_propagates :
    (mark_attendance envStoreExc "2025-06-01T10:00:00" "abc-123" reqGood
        [("abc-123", recUnmarked)] sheetDemo).result =
        Except.error (MarkError.Unhandled "update_one raised") ∧
      (MarkError.Unhandled "update_one raised").status = 500 ∧
      MarkError.Unhandled "update_one raised" ≠ MarkError.Unauthorized ∧
      MarkError.Unhandled "update_one raised" ≠ MarkError.NotFound ∧
      ∀ s, MarkError.Unhandled "update_one raised" ≠ MarkError.AlreadyMarked s := by
  refine ⟨rfl, rfl, by decide, by decide, ?_⟩
  intro s h
  exact MarkError.noConfusion h

/-- C5 (amended): exceptions raised by mirror calls are caught inside the
mirror helper and reported as failure, and a store exception inside the
mirror-enabled branch (after the barrier) is caught by the surrounding
try/except and converted to the non-exceptional outcome ok = false,
sheet_updated = false, with the store untouched; however, exceptions from
the store lookup, or from the store update when the mirror is disabled,
propagate as hard failures — only in the mirror-enabled branch are the
interrupting errors limited to Unauthorized, NotFound, AlreadyMarked. -/
theorem C5_amended_mirror_branch_catches (env : Env) (now aid : String)
    (req : MarkRequest) (store : Store) (sheet : Sheet) (doc : AttendeeRecord)
    (hid : req.scanner_id = env.scanner_id)
    (hpw : req.scanner_password = env.scanner_password)
    (hfr : env.findOneRaises = false)
    (hen : env.update_sheets_on_mark = true)
    (hdoc : find_one store aid = some doc)
    (hnot : doc.attendance_status ≠ some "Attended") :
    ∃ r : MarkResponse,
      (mark_attendance env now aid req store sheet).result = Except.ok r ∧
      (env.updateOneRaises = true →
        r.ok = false ∧ r.sheet_updated = false ∧
        (mark_attendance env now aid req store sheet).store = store) := by
  have hb : (doc.attendance_status == some "Attended") = false :=
    beq_eq_false_iff_ne.mpr hnot
  cases hs : (update_google_sheet_mark env.sheetEnv sheet aid "Attended").1 with
  | false =>
    have hm : mark_attendance env now aid req store sheet =
        ⟨.ok ⟨false, "Failed to update Google Sheet. Attendance not marked.", false⟩,
         store, (update_google_sheet_mark env.sheetEnv sheet aid "Attended").2,
         [.storeRead, .mirrorWrite false]⟩ := by
      unfold mark_attendance
      rw [hid, hpw]
      simp [hfr, hdoc, hb, hen, hs]
    exact ⟨⟨false, "Failed to update Google Sheet. Attendance not marked.", false⟩,
      by rw [hm], fun _ => ⟨rfl, rfl, by rw [hm]⟩⟩
  | true =>
    cases hu : env.updateOneRaises with
    | true =>
      have hm : mark_attendance env now aid req store sheet =
          ⟨.ok ⟨false, "An unexpected error occurred: update_one raised", false⟩,
           store, (update_google_sheet_mark env.sheetEnv sheet aid "Attended").2,
           [.storeRead, .mirrorWrite true]⟩ := by
        unfold mark_attendance
        rw [hid, hpw]
        simp [hfr, hdoc, hb, hen, hs, hu]
      exact ⟨⟨false, "An unexpected error occurred: update_one raised", false⟩,
        by rw [hm], fun _ => ⟨rfl, rfl, by rw [hm]⟩⟩
    | false =>
      have hm : mark_attendance env now aid req store sheet =
          ⟨.ok ⟨true, "Attendance marked successfully in Sheet and Database.", true⟩,
           update_one store aid (applyMark now req.meta),
           (update_google_sheet_mark env.sheetEnv sheet aid "Attended").2,
           [.storeRead, .mirrorWrite true, .storeWrite]⟩ := by
        unfold mark_attendance
        rw [hid, hpw]
        simp [hfr, hdoc, hb, hen, hs, hu]
      exact ⟨⟨true, "Attendance marked successfully in Sheet and Database.", true⟩,
        by rw [hm], fun h => by simp [hu] at h⟩

/-- C5 amended witness: with the mirror enabled and a concretely raising
store update, the request still returns a non-exceptional ok = false,
sheet_updated = false body and the store is untouched. -/
theorem C5_amended_mirror_branch_catches_witness :
    ∃ r : MarkResponse,
      (mark_attendance envMirrorStoreExc "2025-06-01T10:00:00" "abc-123" reqGood
        [("abc-123", recUnmarked)] sheetDemo).result = Except.ok r ∧
      (envMirrorStoreExc.updateOneRaises = true →
        r.ok = false ∧ r.sheet_updated = false ∧
        (mark_attendance envMirrorStoreExc "2025-06-01T10:00:00" "abc-123" reqGood
          [("abc-123", recUnmarked)] sheetDemo).store = [("abc-123", recUnmarked)]) :=
  C5_amended_mirror_branch_catches envMirrorStoreExc "2025-06-01T10:00:00"
    "abc-123" reqGood [("abc-123", recUnmarked)] sheetDemo recUnmarked
    rfl rfl rfl rfl (by decide) (by decide)

/-- C9 counterexample: supplying an empty meta mapping on a mark request
does NOT overwrite the record's previous attendance_meta — `if req.meta:`
is falsy for an empty dict — so "whenever meta is supplied" fails for the
supplied empty mapping. -/
theorem C9_counterexample_empty_meta_not_overwritten :
    reqEmptyMeta.meta = some [] ∧
      (mark_attendance envNoMirror "2025-06-01T10:00:00" "abc-123" reqEmptyMeta
          [("abc-123", recWithMeta)] sheetDemo).result =
        Except.ok ⟨true, "Attendance marked in Database (sheet update was disabled)", false⟩ ∧
      (find_one (mark_attendance envNoMirror "2025-06-01T10:00:00" "abc-123" reqEmptyMeta
          [("abc-123", recWithMeta)] sheetDemo).store "abc-123").map
        (fun r => r.attendance_meta) = some (some [("k", "v")]) ∧
      (some [("k", "v")] : Option Meta) ≠ reqEmptyMeta.meta := by
  refine ⟨rfl, rfl, rfl, by decide⟩

/-- C9 (amended): every successful mark request (mirror enabled or disabled)
commits attendance_status = "Attended" and attendance_ts = the current UTC
timestamp, and sets attendance_meta to the supplied meta mapping
(overwritten, not deep-merged) exactly when a non-empty meta is supplied; a
missing or empty meta leaves the previous attendance_meta in place. -/
theorem C9_amended_commit_fields (env : Env) (now aid : String)
    (req : MarkRequest) (store : Store) (sheet : Sheet) (doc : AttendeeRecord)
    (r : MarkResponse)
    (hid : req.scanner_id = env.scanner_id)
    (hpw : req.scanner_password = env.scanner_password)
    (hfr : env.findOneRaises = false)
    (hur : env.updateOneRaises = false)
    (hdoc : find_one store aid = some doc)
    (hnot : doc.attendance_status ≠ some "Attended")
    (hok : (mark_attendance env now aid req store sheet).result = Except.ok r ∧
      r.ok = true) :
    find_one (mark_attendance env now aid req store sheet).store aid =
        some (applyMark now req.meta doc) ∧
      (applyMark now req.meta doc).attendance_status = some "Attended" ∧
      (applyMark now req.meta doc).attendance_ts = some now ∧
      (metaTruthy req.meta = true →
        (applyMark now req.meta doc).attendance_meta = req.meta) ∧
      (metaTruthy req.meta = false →
        (applyMark now req.meta doc).attendance_meta = doc.attendance_meta) := by
  have hb : (doc.attendance_status == some "Attended") = false :=
    beq_eq_false_iff_ne.mpr hnot
  have key : find_one (mark_attendance env now aid req store sheet).store aid =
      some (applyMark now req.meta doc) := by
    cases hen : env.update_sheets_on_mark with
    | false =>
      have hm : (mark_attendance env now aid req store sheet).store =
          update_one store aid (applyMark now req.meta) := by
        unfold mark_attendance
        rw [hid, hpw]
        simp [hfr, hdoc, hb, hen, hur]
      rw [hm]
      exact find_one_update_one store aid (applyMark now req.meta) doc hdoc
    | true =>
      cases hs : (update_google_sheet_mark env.sheetEnv sheet aid "Attended").1 with
      | false =>
        have hm : (mark_attendance env now aid req store sheet).result =
            Except.ok ⟨false, "Failed to update Google Sheet. Attendance not marked.", false⟩ := by
          unfold mark_attendance
          rw [hid, hpw]
          simp [hfr, hdoc, hb, hen, hs]
        obtain ⟨h1, h2⟩ := hok
        rw [hm] at h1
        rw [← Except.ok.inj h1] at h2
        simp at h2
      | true =>
        have hm : (mark_attendance env now aid req store sheet).store =
            update_one store aid (applyMark now req.meta) := by
          unfold mark_attendance
          rw [hid, hpw]
          simp [hfr, hdoc, hb, hen, hs, hur]
        rw [hm]
        exact find_one_update_one store aid (applyMark now req.meta) doc hdoc
  refine ⟨key, rfl, rfl, ?_, ?_⟩
  · intro h
    simp [applyMark, h]
  · intro h
    simp [applyMark, h]

/-- C9 amended witness: a concrete successful mark with a non-empty meta
overwrites attendance_meta with the supplied mapping and stamps status and
timestamp. -/
theorem C9_amended_commit_fields_witness :
    find_one (mark_attendance envNoMirror "2025-06-01T10:00:00" "abc-123"
        reqWithMeta [("abc-123", recWithMeta)] sheetDemo).store "abc-123" =
        some (applyMark "2025-06-01T10:00:00" reqWithMeta.meta recWithMeta) ∧
      (applyMark "2025-06-01T10:00:00" reqWithMeta.meta recWithMeta).attendance_status =
        some "Attended" ∧
      (applyMark "2025-06-01T10:00:00" reqWithMeta.meta recWithMeta).attendance_ts =
        some "2025-06-01T10:00:00" ∧
      (metaTruthy reqWithMeta.meta = true →
        (applyMark "2025-06-01T10:00:00" reqWithMeta.meta recWithMeta).attendance_meta =
          reqWithMeta.meta) ∧
      (metaTruthy reqWithMeta.meta = false →
        (applyMark "2025-06-01T10:00:00" reqWithMeta.meta recWithMeta).attendance_meta =
          recWithMeta.attendance_meta) :=
  C9_amended_commit_fields envNoMirror "2025-06-01T10:00:00" "abc-123"
    reqWithMeta [("abc-123", recWithMeta)] sheetDemo recWithMeta
    ⟨true, "Attendance marked in Database (sheet update was disabled)", false⟩
    rfl rfl rfl rfl (by decide) (by decide) ⟨rfl, rfl⟩

end TicketBackend
